import Mathlib

/-!
Verification of the options volatility-skew dashboard engine.

Shallow embedding of the computational core of the repository:
moneyness classification (`classify_options` in Dashboard/recent_trial.py
and the divergent variant in Dashboard/latest.py), the skew calculator
(`calculate_volatility_skew` in Dashboard/recent_trial.py), the drift
detector (`compare_skews` in Dashboard/recent_trial.py), and the baseline
store (`save_baseline_skew` / `load_baseline_skew`).

Numbers are `Rat`: the Python values are floats, but every claim under
study is about the exact arithmetic the code performs (differences,
means, threshold comparisons), which is faithfully mirrored over exact
rationals.  pandas data frames are lists of records; `groupby` is
modelled by sorting the distinct keys (pandas sorts group keys
ascending) and filtering, which preserves within-group row order exactly
as pandas does.
-/

/-- Moneyness label assigned by `classify_options`: one of the strings
`ITM`, `ATM`, `OTM` written into the `moneyness` column. -/
inductive Moneyness where
  | ITM
  | ATM
  | OTM
deriving DecidableEq, Repr

/-- One option quote as fed to the engine: the columns of the fetched
data frame that the core reads (`strikePrice`, `expiryDate`,
`impliedVolatility`). -/
structure OptionQuote where
  strikePrice : ℚ
  expiryDate : String
  impliedVolatility : ℚ
deriving DecidableEq, Repr

/-- A quote after `classify_options` added the `moneyness` column. -/
structure ClassifiedQuote where
  strikePrice : ℚ
  expiryDate : String
  impliedVolatility : ℚ
  moneyness : Moneyness
deriving DecidableEq, Repr

/-- The moneyness rule of `classify_options` in Dashboard/recent_trial.py,
lines 47-52, as the sequence of column overwrites the code performs:
default `OTM`, then `ATM` where `strikePrice == spot_price`, then `ITM`
where `strikePrice < spot_price`, then `OTM` where
`strikePrice > spot_price`. -/
def classifyMoneyness (strike spot : ℚ) : Moneyness :=
  let m := Moneyness.OTM
  let m := if strike = spot then Moneyness.ATM else m
  let m := if strike < spot then Moneyness.ITM else m
  let m := if spot < strike then Moneyness.OTM else m
  m

/-- The moneyness rule of `classify_options` in Dashboard/latest.py,
lines 45-49: default `OTM`, then `ATM` where `strikePrice == spot_price`,
then `ITM` where `strikePrice < spot_price`, then `ITM` (not `OTM`) where
`strikePrice > spot_price`. -/
def classifyMoneynessLatest (strike spot : ℚ) : Moneyness :=
  let m := Moneyness.OTM
  let m := if strike = spot then Moneyness.ATM else m
  let m := if strike < spot then Moneyness.ITM else m
  let m := if spot < strike then Moneyness.ITM else m
  m

/-- `classify_options` of Dashboard/recent_trial.py: drop rows with
`impliedVolatility <= 0` (the boolean-mask filter returns a fresh frame),
then write the `moneyness` column on the filtered frame. -/
def classify_options (options_df : List OptionQuote) (spot_price : ℚ) :
    List ClassifiedQuote :=
  (options_df.filter (fun q => 0 < q.impliedVolatility)).map
    (fun q =>
      { strikePrice := q.strikePrice
        expiryDate := q.expiryDate
        impliedVolatility := q.impliedVolatility
        moneyness := classifyMoneyness q.strikePrice spot_price })

/-- One row of the skew curve produced by `calculate_volatility_skew`
in Dashboard/recent_trial.py, line 74: the columns
`strikePrice, moneyness, expiryDate, impliedVolatility, skew, ATM_IV`. -/
structure SkewRow where
  strikePrice : ℚ
  moneyness : Moneyness
  expiryDate : String
  impliedVolatility : ℚ
  skew : ℚ
  ATM_IV : ℚ
deriving DecidableEq, Repr

/-- Outcome of `calculate_volatility_skew` in Dashboard/recent_trial.py.
`noData` is the `return None, None` taken when the filtered frame is
empty (line 59-60); `concatError` is the `ValueError` that
`pd.concat(skew_data)` raises on line 76 when `skew_data` is the empty
list (every expiry group lacked an ATM row); `curve rows` is the
concatenated skew frame.  The second element of the Python return tuple
(the last loop iteration's `atm_iv`) is not modelled: no caller reads it. -/
inductive SkewResult where
  | noData
  | concatError
  | curve (rows : List SkewRow)
deriving DecidableEq, Repr

/-- Lexicographic order on character lists, written out structurally so
that it evaluates on concrete inputs. -/
def charListLe : List Char → List Char → Bool
  | [], _ => true
  | _ :: _, [] => false
  | a :: as, b :: bs =>
    if a < b then true else if b < a then false else charListLe as bs

/-- Lexicographic comparison of two expiry-date strings. -/
def expiryLe (a b : String) : Bool :=
  charListLe a.data b.data

/-- Insert a string into a sorted list, keeping it sorted (ascending). -/
def insertSorted (e : String) : List String → List String
  | [] => [e]
  | x :: xs => if expiryLe e x then e :: x :: xs else x :: insertSorted e xs

/-- Sort a list of strings lexicographically ascending; models pandas
`groupby` sorting its group keys (the expiry dates are strings, which
pandas orders lexicographically). -/
def sortExpiries (l : List String) : List String :=
  l.foldr insertSorted []

/-- The distinct elements of a list of strings (one occurrence kept per
value; which one is irrelevant because the keys are sorted afterwards). -/
def uniqueKeys : List String → List String
  | [] => []
  | e :: es => if e ∈ es then uniqueKeys es else e :: uniqueKeys es

/-- The expiry groups formed by `filtered_df.groupby('expiryDate')` on
line 63 of Dashboard/recent_trial.py: one `(key, group)` pair per
distinct `expiryDate`, keys ascending, each group keeping the frame's
row order. -/
def calcGroups (filtered : List ClassifiedQuote) :
    List (String × List ClassifiedQuote) :=
  (sortExpiries (uniqueKeys (filtered.map (fun q => q.expiryDate)))).map
    (fun e => (e, filtered.filter (fun q => q.expiryDate = e)))

/-- The `atm_iv` of one expiry group, line 68 of
Dashboard/recent_trial.py: the mean `impliedVolatility` over the rows
labelled `ATM`.  pandas `.mean()` of an empty selection is `NaN`, which
the `pd.notna(atm_iv)` guard on line 71 rejects; that case is `none`. -/
def groupATMIV (group : List ClassifiedQuote) : Option ℚ :=
  let a := group.filter (fun q => q.moneyness = Moneyness.ATM)
  if a = [] then none
  else some ((a.map (fun q => q.impliedVolatility)).sum / (a.length : ℚ))

/-- The skew rows emitted for one expiry group (lines 72-74 of
Dashboard/recent_trial.py): `skew = impliedVolatility - atm_iv` and
`ATM_IV = atm_iv` on every row of the group. -/
def skewRowsOfGroup (group : List ClassifiedQuote) (atm_iv : ℚ) :
    List SkewRow :=
  group.map (fun q =>
    { strikePrice := q.strikePrice
      moneyness := q.moneyness
      expiryDate := q.expiryDate
      impliedVolatility := q.impliedVolatility
      skew := q.impliedVolatility - atm_iv
      ATM_IV := atm_iv })

/-- `calculate_volatility_skew` of Dashboard/recent_trial.py,
lines 57-77: filter out non-positive IVs, group by expiry, per group
take the mean ATM IV and, when it exists, emit the group's skew rows;
finally concatenate.  `pd.concat` of the empty list raises, which is the
`concatError` outcome. -/
def calculate_volatility_skew (options_df : List ClassifiedQuote) :
    SkewResult :=
  let filtered := options_df.filter (fun q => 0 < q.impliedVolatility)
  if filtered = [] then SkewResult.noData
  else
    let skew_data := (calcGroups filtered).filterMap (fun ge =>
      match groupATMIV ge.2 with
      | none => none
      | some atm_iv => some (skewRowsOfGroup ge.2 atm_iv))
    if skew_data = [] then SkewResult.concatError
    else SkewResult.curve skew_data.flatten

/-- One significant-change record emitted by `compare_skews` in
Dashboard/recent_trial.py, line 111: the columns
`strikePrice, expiryDate, ATM_IV_change, skew_change`. -/
structure ChangeRecord where
  strikePrice : ℚ
  expiryDate : String
  ATM_IV_change : ℚ
  skew_change : ℚ
deriving DecidableEq, Repr

/-- The inner merge `current_skew.merge(baseline_skew,
on=['strikePrice', 'expiryDate'], ...)` on line 96 of
Dashboard/recent_trial.py: every row of the left frame (the current
curve) paired with every row of the baseline that has the same
`(strikePrice, expiryDate)` key, in left-frame order. -/
def mergedPairs (current baseline : List SkewRow) : List (SkewRow × SkewRow) :=
  current.flatMap (fun c =>
    (baseline.filter (fun b =>
      b.strikePrice = c.strikePrice ∧ b.expiryDate = c.expiryDate)).map
      (fun b => (c, b)))

/-- Lines 99-109 of Dashboard/recent_trial.py: on the merged frame,
`ATM_IV_change = impliedVolatility_current - impliedVolatility_baseline`
and `skew_change = skew_current - skew_baseline`; keep only rows whose
current-side `moneyness` is `ATM`; then keep those where either change
exceeds the threshold in absolute value, and select the output columns. -/
def significantChanges (baseline current : List SkewRow) (threshold : ℚ) :
    List ChangeRecord :=
  (((mergedPairs current baseline).filter
      (fun p => p.1.moneyness = Moneyness.ATM)).filter
      (fun p => threshold < |p.1.impliedVolatility - p.2.impliedVolatility| ∨
                threshold < |p.1.skew - p.2.skew|)).map
    (fun p =>
      { strikePrice := p.1.strikePrice
        expiryDate := p.1.expiryDate
        ATM_IV_change := p.1.impliedVolatility - p.2.impliedVolatility
        skew_change := p.1.skew - p.2.skew })

/-- `compare_skews` of Dashboard/recent_trial.py, lines 91-114: `None`
when either input frame is `None`, the selected significant-change rows
when that selection is non-empty, and `None` again (line 114) when no
change clears the threshold. -/
def compare_skews (baseline_skew current_skew : Option (List SkewRow))
    (threshold : ℚ) : Option (List ChangeRecord) :=
  match baseline_skew, current_skew with
  | none, _ => none
  | _, none => none
  | some baseline, some current =>
    let sig := significantChanges baseline current threshold
    if sig = [] then none else some sig

/-- The change records a `compare_skews` result stands for downstream:
`main` treats the `None` sentinel exactly as an empty record set (nothing
is displayed and nothing is written). -/
def emittedRecords : Option (List ChangeRecord) → List ChangeRecord
  | none => []
  | some records => records

/-- One row of the on-disk baseline table (§4.3 of the design: a flat
CSV row per SkewRow, with the moneyness label stored as its string). -/
structure CSVRecord where
  strikePrice : ℚ
  moneyness : String
  expiryDate : String
  impliedVolatility : ℚ
  skew : ℚ
  ATM_IV : ℚ
deriving DecidableEq, Repr

/-- The string written to the `moneyness` CSV column for each label. -/
def moneynessLabel : Moneyness → String
  | Moneyness.ITM => "ITM"
  | Moneyness.ATM => "ATM"
  | Moneyness.OTM => "OTM"

/-- Serialize one SkewRow to its CSV row (column order of line 74 of
Dashboard/recent_trial.py). -/
def toCSVRecord (r : SkewRow) : CSVRecord :=
  { strikePrice := r.strikePrice
    moneyness := moneynessLabel r.moneyness
    expiryDate := r.expiryDate
    impliedVolatility := r.impliedVolatility
    skew := r.skew
    ATM_IV := r.ATM_IV }

/-- Read a moneyness label back from its CSV string. -/
def parseMoneyness (s : String) : Option Moneyness :=
  if s = "ITM" then some Moneyness.ITM
  else if s = "ATM" then some Moneyness.ATM
  else if s = "OTM" then some Moneyness.OTM
  else none

/-- Read one CSV row back as a SkewRow (fails on an unknown moneyness
string). -/
def parseCSVRecord (t : CSVRecord) : Option SkewRow :=
  (parseMoneyness t.moneyness).map (fun m =>
    { strikePrice := t.strikePrice
      moneyness := m
      expiryDate := t.expiryDate
      impliedVolatility := t.impliedVolatility
      skew := t.skew
      ATM_IV := t.ATM_IV })

/-- The store's visible state: what table, if any, each CSV filename
holds.  `none` is "file does not exist" (`os.path.exists` false). -/
def FileStore : Type := String → Option (List CSVRecord)

/-- `save_baseline_skew` of Dashboard/recent_trial.py, lines 86-88:
skip when the frame is `None`, otherwise `to_csv(filename)` overwrites
that file with the curve's flat table. -/
def save_baseline_skew (baseline_skew : Option (List SkewRow))
    (filename : String) (fs : FileStore) : FileStore :=
  match baseline_skew with
  | none => fs
  | some rows => fun f =>
      if f = filename then some (rows.map toCSVRecord) else fs f

/-- `load_baseline_skew` of Dashboard/recent_trial.py, lines 80-84:
`read_csv(filename)` when the file exists, else `None`. -/
def load_baseline_skew (filename : String) (fs : FileStore) :
    Option (List CSVRecord) :=
  fs filename

/-- A raw data-frame row for the frame-effect model: the quote columns
plus the `moneyness` column, which is `none` before any classifier has
written it. -/
structure PRow where
  strikePrice : ℚ
  expiryDate : String
  impliedVolatility : ℚ
  moneyness : Option Moneyness
deriving DecidableEq, Repr

/-- State-passing model of `classify_options` in
Dashboard/recent_trial.py: the first component is the caller's frame
after the call, the second the returned frame.  The boolean-mask filter
on line 46 rebinds the local name to a fresh filtered frame, so the
column writes on lines 47-52 land on that copy and the caller's frame
comes back unchanged. -/
def classify_options_rt_effect (options_df : List PRow) (spot_price : ℚ) :
    List PRow × List PRow :=
  let copy := (options_df.filter (fun r => 0 < r.impliedVolatility)).map
    (fun r => { r with moneyness := some (classifyMoneyness r.strikePrice spot_price) })
  (options_df, copy)

/-- State-passing model of `classify_options` in Dashboard/latest.py,
lines 44-50: the column writes go directly to the frame the caller
passed in (no filter, no copy), and that same frame is returned. -/
def classify_options_latest_effect (options_df : List PRow) (spot_price : ℚ) :
    List PRow × List PRow :=
  let mutated := options_df.map
    (fun r => { r with moneyness := some (classifyMoneynessLatest r.strikePrice spot_price) })
  (mutated, mutated)

/-- State-passing model of `calculate_volatility_skew` in
Dashboard/recent_trial.py: the boolean-mask filter on line 58 and the
`group.copy()` on line 72 keep every write off the input frame, so the
caller's frame comes back unchanged next to the result. -/
def calculate_volatility_skew_effect (options_df : List ClassifiedQuote) :
    List ClassifiedQuote × SkewResult :=
  (options_df, calculate_volatility_skew options_df)

/-- A small concrete snapshot (percent-valued IVs as the NSE feed
carries them): expiry `B` has a single OTM quote, expiry `A` has an ATM
and an OTM quote, and one quote has the invalid IV 0. -/
def snapExample : List OptionQuote :=
  [{ strikePrice := 24950, expiryDate := "B", impliedVolatility := 12 },
   { strikePrice := 24800, expiryDate := "A", impliedVolatility := 15 },
   { strikePrice := 24900, expiryDate := "A", impliedVolatility := 18 },
   { strikePrice := 24700, expiryDate := "A", impliedVolatility := 0 }]

/-- The curve the engine computes from `snapExample` at spot 24800:
expiry `A` with ATM reference 15; expiry `B` is dropped. -/
def rowsExample : List SkewRow :=
  [{ strikePrice := 24800, moneyness := Moneyness.ATM, expiryDate := "A",
     impliedVolatility := 15, skew := 0, ATM_IV := 15 },
   { strikePrice := 24900, moneyness := Moneyness.OTM, expiryDate := "A",
     impliedVolatility := 18, skew := 3, ATM_IV := 15 }]

/-- The OTM row of `rowsExample`. -/
def rowExample : SkewRow :=
  { strikePrice := 24900, moneyness := Moneyness.OTM, expiryDate := "A",
    impliedVolatility := 18, skew := 3, ATM_IV := 15 }

/-! Helper lemmas shared by several results. -/

theorem otm_ne_atm : Moneyness.OTM ≠ Moneyness.ATM := by decide

theorem itm_ne_atm : Moneyness.ITM ≠ Moneyness.ATM := by decide

/-- Every row that `classify_options` returns has positive implied
volatility (the boolean-mask filter runs before the column writes). -/
theorem mem_classify_options_pos {snap : List OptionQuote} {spot : ℚ}
    {q : ClassifiedQuote} (hq : q ∈ classify_options snap spot) :
    0 < q.impliedVolatility := by
  rcases List.mem_map.mp hq with ⟨p, hp, rfl⟩
  exact of_decide_eq_true (List.mem_filter.mp hp).2

/-- Re-filtering a classified frame for positive implied volatility is
the identity: `calculate_volatility_skew` receives an already-filtered
frame from `classify_options`. -/
theorem classify_options_filter_pos (snap : List OptionQuote) (spot : ℚ) :
    (classify_options snap spot).filter (fun q => 0 < q.impliedVolatility) =
      classify_options snap spot :=
  List.filter_eq_self.mpr (fun q hq => decide_eq_true (mem_classify_options_pos hq))

/-- Every group `calcGroups` forms is the filter of the frame by that
group's own expiry key. -/
theorem calcGroups_snd {filtered : List ClassifiedQuote}
    {ge : String × List ClassifiedQuote} (h : ge ∈ calcGroups filtered) :
    ge.2 = filtered.filter (fun q => q.expiryDate = ge.1) := by
  rcases List.mem_map.mp h with ⟨e, _, rfl⟩
  rfl

/-- Structure of every row of a curve produced by
`calculate_volatility_skew`: it comes from a positive-IV quote of the
input frame, copies that quote's fields, carries its own expiry group's
ATM reference, and its skew is exactly the difference of its own
implied volatility and that reference. -/
theorem calc_curve_mem {options_df : List ClassifiedQuote} {rows : List SkewRow}
    (h : calculate_volatility_skew options_df = SkewResult.curve rows)
    {r : SkewRow} (hr : r ∈ rows) :
    ∃ q ∈ options_df.filter (fun q => 0 < q.impliedVolatility),
      r.strikePrice = q.strikePrice ∧ r.moneyness = q.moneyness ∧
      r.expiryDate = q.expiryDate ∧ r.impliedVolatility = q.impliedVolatility ∧
      groupATMIV ((options_df.filter (fun q => 0 < q.impliedVolatility)).filter
        (fun q => q.expiryDate = r.expiryDate)) = some r.ATM_IV ∧
      r.skew = r.impliedVolatility - r.ATM_IV := by
  rw [calculate_volatility_skew] at h
  split at h
  · exact absurd h (by simp)
  dsimp only at h
  split at h
  · exact absurd h (by simp)
  rcases SkewResult.curve.inj h with rfl
  rcases List.mem_flatten.mp hr with ⟨l, hl, hrl⟩
  rcases List.mem_filterMap.mp hl with ⟨ge, hge, hsome⟩
  rcases hA : groupATMIV ge.2 with _ | atm_iv
  · rw [hA] at hsome; exact absurd hsome (by simp)
  rw [hA] at hsome
  rcases Option.some.inj hsome with rfl
  rcases List.mem_map.mp hrl with ⟨q, hq, rfl⟩
  have hg := calcGroups_snd hge
  have hqf : q ∈ ge.2 := hq
  rw [hg] at hqf
  have hqe : q.expiryDate = ge.1 :=
    of_decide_eq_true (List.mem_filter.mp hqf).2
  refine ⟨q, (List.mem_filter.mp hqf).1, rfl, rfl, rfl, rfl, ?_, rfl⟩
  show groupATMIV ((options_df.filter (fun q => 0 < q.impliedVolatility)).filter
      (fun p => p.expiryDate = q.expiryDate)) = some atm_iv
  rw [hqe, ← hg, hA]

/-- Concrete run of the engine on `snapExample` at spot 24800. -/
theorem calc_skew_example_eval :
    calculate_volatility_skew (classify_options snapExample 24800) =
      SkewResult.curve rowsExample := by
  simp +decide [snapExample, rowsExample, calculate_volatility_skew, classify_options,
    classifyMoneyness, calcGroups, sortExpiries, insertSorted, expiryLe, charListLe,
    uniqueKeys, groupATMIV, skewRowsOfGroup, List.filter_cons, List.filterMap_cons]
  norm_num

/-- C1: for every snapshot and positive spot price, every SkewRow the
engine emits satisfies `skew = impliedVolatility - ATM_IV` exactly, and
its `ATM_IV` is `groupATMIV` of its own expiry group of the classified
frame, i.e. the arithmetic mean of the implied volatilities of that
group's ATM-classified quotes. -/
theorem calc_skew_rows_exact (snap : List OptionQuote) (spot : ℚ)
    (hspot : 0 < spot) (rows : List SkewRow)
    (h : calculate_volatility_skew (classify_options snap spot) =
      SkewResult.curve rows) :
    ∀ r ∈ rows, r.skew = r.impliedVolatility - r.ATM_IV ∧
      groupATMIV ((classify_options snap spot).filter
        (fun q => q.expiryDate = r.expiryDate)) = some r.ATM_IV := by
  intro r hr
  rcases calc_curve_mem h hr with ⟨q, hq, h1, h2, h3, h4, hATM, hskew⟩
  rw [classify_options_filter_pos] at hATM
  exact ⟨hskew, hATM⟩

/-- C1 witness: the OTM row of the concrete curve of `snapExample`. -/
theorem calc_skew_rows_exact_witness :
    rowExample.skew = rowExample.impliedVolatility - rowExample.ATM_IV ∧
      groupATMIV ((classify_options snapExample 24800).filter
        (fun q => q.expiryDate = rowExample.expiryDate)) =
        some rowExample.ATM_IV :=
  calc_skew_rows_exact snapExample 24800 (by norm_num) rowsExample
    calc_skew_example_eval rowExample (by simp [rowsExample, rowExample])

/-- C3: an expiry group of the classified frame that contains no
ATM-labelled quote contributes no SkewRow to the emitted curve at all:
no emitted row carries that expiry (in particular no row for it is ever
built with a zero ATM reference). -/
theorem calc_skew_no_atm_group_excluded (snap : List OptionQuote) (spot : ℚ)
    (rows : List SkewRow) (e : String)
    (h : calculate_volatility_skew (classify_options snap spot) =
      SkewResult.curve rows)
    (hno : ∀ q ∈ classify_options snap spot,
      q.expiryDate = e → q.moneyness ≠ Moneyness.ATM) :
    ∀ r ∈ rows, r.expiryDate ≠ e := by
  intro r hr he
  rcases calc_curve_mem h hr with ⟨q, hq, h1, h2, h3, h4, hATM, hskew⟩
  rw [classify_options_filter_pos] at hATM
  have hgrp : ((classify_options snap spot).filter
      (fun p => p.expiryDate = r.expiryDate)).filter
      (fun p => p.moneyness = Moneyness.ATM) = [] := by
    rw [List.filter_eq_nil_iff]
    intro x hx
    have hxe : x.expiryDate = r.expiryDate :=
      of_decide_eq_true (List.mem_filter.mp hx).2
    have hxm := hno x (List.mem_filter.mp hx).1 (by rw [hxe, he])
    simpa using hxm
  rw [groupATMIV] at hATM
  rw [hgrp] at hATM
  simp at hATM

/-- C3 witness: expiry `B` of `snapExample` has an OTM quote only, and
indeed the emitted ATM row does not carry expiry `B`. -/
theorem calc_skew_no_atm_group_excluded_witness :
    rowExample.expiryDate ≠ "B" :=
  calc_skew_no_atm_group_excluded snapExample 24800 rowsExample "B"
    calc_skew_example_eval (by decide) rowExample
    (by simp [rowsExample, rowExample])

/-- C4: every SkewRow the engine emits carries a strictly positive
implied volatility, so a quote with `impliedVolatility <= 0` never
appears in the curve (it is dropped before grouping and before the ATM
mean). -/
theorem calc_skew_rows_pos_iv (snap : List OptionQuote) (spot : ℚ)
    (rows : List SkewRow)
    (h : calculate_volatility_skew (classify_options snap spot) =
      SkewResult.curve rows) :
    ∀ r ∈ rows, 0 < r.impliedVolatility := by
  intro r hr
  rcases calc_curve_mem h hr with ⟨q, hq, h1, h2, h3, h4, hATM, hskew⟩
  rw [h4]
  exact of_decide_eq_true (List.mem_filter.mp hq).2

/-- C4 witness: the OTM row of the concrete curve has positive IV. -/
theorem calc_skew_rows_pos_iv_witness : 0 < rowExample.impliedVolatility :=
  calc_skew_rows_pos_iv snapExample 24800 rowsExample calc_skew_example_eval
    rowExample (by simp [rowsExample, rowExample])

/-- C9: on a snapshot whose only positive-IV quote is OTM (so every
expiry group lacks an ATM quote), `calculate_volatility_skew` reaches
`pd.concat` with an empty list and raises, instead of returning an
empty curve; a snapshot with no positive-IV quote returns the
`(None, None)` sentinel without raising. -/
theorem calc_skew_no_atm_raises :
    calculate_volatility_skew (classify_options
        [{ strikePrice := 24900, expiryDate := "2024-01-25",
           impliedVolatility := 12 }] 24800) = SkewResult.concatError ∧
      calculate_volatility_skew (classify_options
        [{ strikePrice := 24800, expiryDate := "2024-01-25",
           impliedVolatility := 0 }] 24800) = SkewResult.noData := by
  constructor
  · decide
  · decide

/-- C5 counterexample: for a strike strictly above the spot price,
`classify_options` of Dashboard/latest.py labels the quote ITM, not
OTM as the claim states (its last column write sends
`strikePrice > spot_price` to ITM). -/
theorem classify_latest_gt_spot_itm :
    (0 : ℚ) < 24800 ∧ (24800 : ℚ) < 24900 ∧
      classifyMoneynessLatest 24900 24800 = Moneyness.ITM := by
  refine ⟨?_, ?_, ?_⟩
  · decide
  · decide
  · decide

/-- C5 (amended): for every strike and positive spot, the classifier of
Dashboard/recent_trial.py realises the claimed rule (ATM on equality,
ITM below spot, OTM above spot), while the classifier of
Dashboard/latest.py returns ATM on equality and ITM everywhere else, so
OTM is unreachable there.  Both are total pure functions of
`(strike, spot)`. -/
theorem classify_rules (strike spot : ℚ) (h : 0 < spot) :
    classifyMoneyness strike spot =
      (if strike = spot then Moneyness.ATM
       else if strike < spot then Moneyness.ITM else Moneyness.OTM) ∧
    classifyMoneynessLatest strike spot =
      (if strike = spot then Moneyness.ATM else Moneyness.ITM) := by
  rcases lt_trichotomy strike spot with hlt | heq | hgt
  · simp [classifyMoneyness, classifyMoneynessLatest, hlt, hlt.ne, hlt.asymm]
  · subst heq
    simp [classifyMoneyness, classifyMoneynessLatest, lt_irrefl]
  · simp [classifyMoneyness, classifyMoneynessLatest, hgt, hgt.ne', hgt.asymm,
      not_lt_of_gt hgt]

/-- C5 witness: the amended rule at strike 24900, spot 24800. -/
theorem classify_rules_witness :
    classifyMoneyness 24900 24800 =
      (if (24900 : ℚ) = 24800 then Moneyness.ATM
       else if (24900 : ℚ) < 24800 then Moneyness.ITM else Moneyness.OTM) ∧
    classifyMoneynessLatest 24900 24800 =
      (if (24900 : ℚ) = 24800 then Moneyness.ATM else Moneyness.ITM) :=
  classify_rules 24900 24800 (by norm_num)

/-- C6: with an absent baseline the drift detector short-circuits:
`compare_skews` returns its `None` sentinel for every current curve and
threshold, so no ChangeRecord is emitted (the cycle only establishes a
baseline). -/
theorem compare_skews_absent_baseline
    (current_skew : Option (List SkewRow)) (threshold : ℚ) :
    compare_skews none current_skew threshold = none ∧
      emittedRecords (compare_skews none current_skew threshold) = [] := by
  cases current_skew <;> exact ⟨rfl, rfl⟩

/-- Parsing a serialized SkewRow recovers it exactly. -/
theorem parseCSVRecord_toCSVRecord (r : SkewRow) :
    parseCSVRecord (toCSVRecord r) = some r := by
  rcases r with ⟨s, m, e, i, sk, a⟩
  cases m <;>
    simp [parseCSVRecord, toCSVRecord, parseMoneyness, moneynessLabel]

/-- The records a some/some comparison stands for are exactly the
selected significant changes (the `None`-when-empty sentinel of line 114
adds nothing). -/
theorem emittedRecords_compare (baseline current : List SkewRow) (t : ℚ) :
    emittedRecords (compare_skews (some baseline) (some current) t) =
      significantChanges baseline current t := by
  show emittedRecords
      (if significantChanges baseline current t = [] then none
       else some (significantChanges baseline current t)) = _
  split
  next hsig => rw [emittedRecords, hsig]
  next => rfl

/-- C2 counterexample: a key present in both curves whose IV delta
exceeds the threshold, yet `compare_skews` emits nothing, because the
code keeps only rows whose current-side moneyness is ATM before
thresholding. -/
theorem compare_skews_non_atm_dropped :
    ((5 : ℚ) < |(20 : ℚ) - 12|) ∧
      compare_skews
        (some [{ strikePrice := 100, moneyness := Moneyness.OTM,
                 expiryDate := "2024-01-25", impliedVolatility := 12,
                 skew := 0, ATM_IV := 15 }])
        (some [{ strikePrice := 100, moneyness := Moneyness.OTM,
                 expiryDate := "2024-01-25", impliedVolatility := 20,
                 skew := 0, ATM_IV := 15 }]) 5 = none := by
  constructor
  · norm_num
  · simp +decide [compare_skews, significantChanges, mergedPairs]

/-- C2 (amended): for every baseline curve, current curve and threshold,
the drift detector emits a ChangeRecord exactly for the merged
(current, baseline) row pairs that agree on `(strikePrice, expiryDate)`,
whose current-side moneyness is ATM, and whose IV delta or skew delta
exceeds the threshold in absolute value; keys present in only one curve,
and keys whose current row is not ATM, produce no record. -/
theorem compare_skews_mem_iff (baseline current : List SkewRow) (t : ℚ)
    (r : ChangeRecord) :
    r ∈ emittedRecords (compare_skews (some baseline) (some current) t) ↔
      ∃ c ∈ current, ∃ b ∈ baseline,
        b.strikePrice = c.strikePrice ∧ b.expiryDate = c.expiryDate ∧
        c.moneyness = Moneyness.ATM ∧
        (t < |c.impliedVolatility - b.impliedVolatility| ∨
          t < |c.skew - b.skew|) ∧
        r = { strikePrice := c.strikePrice, expiryDate := c.expiryDate,
              ATM_IV_change := c.impliedVolatility - b.impliedVolatility,
              skew_change := c.skew - b.skew } := by
  rw [emittedRecords_compare]
  simp only [significantChanges, mergedPairs, List.mem_map, List.mem_filter,
    List.mem_flatMap, decide_eq_true_eq]
  constructor
  · rintro ⟨⟨c, b⟩, ⟨⟨⟨c2, hc2, b2, ⟨hb2, hks, hke⟩, hpair⟩, hATM⟩, hthr⟩, rfl⟩
    cases hpair
    exact ⟨c, hc2, b, hb2, hks, hke, hATM, hthr, rfl⟩
  · rintro ⟨c, hc, b, hb, hks, hke, hATM, hthr, rfl⟩
    exact ⟨(c, b), ⟨⟨⟨c, hc, b, ⟨hb, hks, hke⟩, rfl⟩, hATM⟩, hthr⟩, rfl⟩

/-- C8: raising the threshold can only shrink the emitted record set:
every record emitted at the larger threshold is emitted at the smaller
one, for the same pair of curves (including absent ones). -/
theorem compare_skews_threshold_mono
    (baseline_skew current_skew : Option (List SkewRow)) (t1 t2 : ℚ)
    (h12 : t1 < t2) (r : ChangeRecord)
    (hr : r ∈ emittedRecords (compare_skews baseline_skew current_skew t2)) :
    r ∈ emittedRecords (compare_skews baseline_skew current_skew t1) := by
  cases baseline_skew with
  | none => simp [compare_skews, emittedRecords] at hr
  | some baseline =>
    cases current_skew with
    | none => simp [compare_skews, emittedRecords] at hr
    | some current =>
      rw [emittedRecords_compare] at hr ⊢
      simp only [significantChanges, List.mem_map, List.mem_filter] at hr ⊢
      rcases hr with ⟨p, ⟨hpatm, hpthr⟩, rfl⟩
      refine ⟨p, ⟨hpatm, ?_⟩, rfl⟩
      apply decide_eq_true
      rcases of_decide_eq_true hpthr with h | h
      · exact Or.inl (lt_trans h12 h)
      · exact Or.inr (lt_trans h12 h)

/-- C8 witness: a record emitted at threshold 5 is also emitted at
threshold 2 for the same concrete one-row curves. -/
theorem compare_skews_threshold_mono_witness :
    ({ strikePrice := 100, expiryDate := "E", ATM_IV_change := 8,
       skew_change := 0 } : ChangeRecord) ∈
      emittedRecords (compare_skews
        (some [{ strikePrice := 100, moneyness := Moneyness.ATM,
                 expiryDate := "E", impliedVolatility := 12, skew := 0,
                 ATM_IV := 12 }])
        (some [{ strikePrice := 100, moneyness := Moneyness.ATM,
                 expiryDate := "E", impliedVolatility := 20, skew := 0,
                 ATM_IV := 20 }]) 2) :=
  compare_skews_threshold_mono
    (some [{ strikePrice := 100, moneyness := Moneyness.ATM,
             expiryDate := "E", impliedVolatility := 12, skew := 0,
             ATM_IV := 12 }])
    (some [{ strikePrice := 100, moneyness := Moneyness.ATM,
             expiryDate := "E", impliedVolatility := 20, skew := 0,
             ATM_IV := 20 }]) 2 5 (by norm_num)
    { strikePrice := 100, expiryDate := "E", ATM_IV_change := 8,
      skew_change := 0 }
    (by simp only [emittedRecords_compare, significantChanges, mergedPairs,
          List.flatMap_cons, List.flatMap_nil, List.filter_cons, List.filter_nil]
        norm_num)

/-- C10 counterexample: the classifier of Dashboard/latest.py writes the
moneyness column in place on the frame it was passed, so after the call
the caller's frame differs from the snapshot that was built. -/
theorem classify_latest_effect_mutates :
    (classify_options_latest_effect
        [{ strikePrice := 24800, expiryDate := "2024-01-25",
           impliedVolatility := 12, moneyness := none }] 24800).1 ≠
      [{ strikePrice := 24800, expiryDate := "2024-01-25",
         impliedVolatility := 12, moneyness := none }] := by
  decide

/-- C10 (amended): the recent_trial.py classifier and the skew
calculator leave the caller's frame unchanged (they work on a filtered
copy), while the latest.py classifier rewrites the input frame's
moneyness column in place; even there, no quote is added or removed and
the strike, expiry and implied-volatility fields are never altered. -/
theorem classify_effects_frame (df : List PRow) (cdf : List ClassifiedQuote)
    (spot : ℚ) :
    (classify_options_rt_effect df spot).1 = df ∧
    (calculate_volatility_skew_effect cdf).1 = cdf ∧
    ((classify_options_latest_effect df spot).1).map
        (fun r => (r.strikePrice, r.expiryDate, r.impliedVolatility)) =
      df.map (fun r => (r.strikePrice, r.expiryDate, r.impliedVolatility)) ∧
    ((classify_options_latest_effect df spot).1).length = df.length := by
  refine ⟨rfl, rfl, ?_, ?_⟩
  · simp [classify_options_latest_effect]
  · simp [classify_options_latest_effect]

/-- Deserializing a serialized curve recovers its rows exactly. -/
theorem filterMap_parse_toCSVRecord (rows : List SkewRow) :
    (rows.map toCSVRecord).filterMap parseCSVRecord = rows := by
  induction rows with
  | nil => rfl
  | cons r rs ih =>
    simp only [List.map_cons, List.filterMap_cons, parseCSVRecord_toCSVRecord, ih]

/-- C7: saving a non-empty curve and loading it back returns exactly the
curve's flat table, and deserializing that table recovers the curve's
rows field-for-field. -/
theorem baseline_roundtrip (fs : FileStore) (filename : String)
    (rows : List SkewRow) (h : rows ≠ []) :
    load_baseline_skew filename (save_baseline_skew (some rows) filename fs) =
        some (rows.map toCSVRecord) ∧
      (rows.map toCSVRecord).filterMap parseCSVRecord = rows := by
  constructor
  · simp [load_baseline_skew, save_baseline_skew]
  · exact filterMap_parse_toCSVRecord rows

/-- C7 witness: round trip of a concrete one-row curve through an empty
store. -/
theorem baseline_roundtrip_witness :
    load_baseline_skew "baseline_calls_skew.csv"
        (save_baseline_skew
          (some [{ strikePrice := 24800, moneyness := Moneyness.ATM,
                   expiryDate := "2024-01-25", impliedVolatility := 1/5,
                   skew := 0, ATM_IV := 1/5 }])
          "baseline_calls_skew.csv" (fun _ => none)) =
        some ([{ strikePrice := 24800, moneyness := Moneyness.ATM,
                 expiryDate := "2024-01-25", impliedVolatility := 1/5,
                 skew := 0, ATM_IV := 1/5 }].map toCSVRecord) ∧
      ([({ strikePrice := 24800, moneyness := Moneyness.ATM,
           expiryDate := "2024-01-25", impliedVolatility := 1/5,
           skew := 0, ATM_IV := 1/5 } : SkewRow)].map toCSVRecord).filterMap
          parseCSVRecord =
        [{ strikePrice := 24800, moneyness := Moneyness.ATM,
           expiryDate := "2024-01-25", impliedVolatility := 1/5,
           skew := 0, ATM_IV := 1/5 }] :=
  baseline_roundtrip (fun _ => none) "baseline_calls_skew.csv" _ (by simp)
